import Mathlib

/-!
Shallow embedding of the crate `genesis-programs` (src/genesis-programs/src/lib.rs):
the inflation schedule `get_inflation`, the activation table `get_programs`,
the genesis-builder read `get_native_programs_for_genesis`, and the epoch
synchronization callback produced by `get_entered_epoch_callback`.

Epochs are `u64` values modelled as `Nat`; `Epoch::MAX` is modelled as the
concrete value `2 ^ 64 - 1`.  The runtime handle (`Bank`) lives in an external
crate and is modelled from the spec: it carries the current epoch, the active
inflation policy, and the registered-module set, and module registration is an
idempotent no-op on an already registered module.
-/

namespace GenesisPrograms

/-- Maximum epoch value, the sentinel `Epoch::MAX` (`u64::MAX`). -/
def EPOCH_MAX : Nat := 2 ^ 64 - 1

/-- Genesis epoch constant `GENESIS_EPOCH` from `solana_sdk::clock`: epoch 0. -/
def GENESIS_EPOCH : Nat := 0

/-- Deployment identity, `ClusterType` from `solana_sdk::genesis_config`. -/
inductive ClusterType
  | Development
  | Devnet
  | Testnet
  | MainnetBeta
  deriving DecidableEq, Repr

/-- Modelled from the spec: the `Inflation` value object lives in `solana_sdk`
(not under src/).  Only its two canonical values are used by this crate:
the policy produced by `Inflation::default()` and the zero-issuance policy
produced by `Inflation::new_disabled()`; they are comparable by value. -/
inductive Inflation
  | default
  | disabled
  deriving DecidableEq, Repr

/-- Modelled from the spec: the concrete address-space identifiers (pubkeys)
of the built-in programs come from external crates (the `solana_*_program!`
macros); the spec states all identifiers are pairwise distinct, so they are
modelled as distinct constants. -/
inductive Pubkey
  | bpfLoaderId
  | bpfLoaderDeprecatedId
  | vestId
  | budgetId
  | exchangeId
  deriving DecidableEq, Repr

/-- Modelled from the spec: the opaque, debug-printable entry-point reference
(`ProcessInstructionWithContext`) supplied by the two loader crates. -/
inductive EntryPoint
  | bpfLoaderEntry
  | bpfLoaderDeprecatedEntry
  deriving DecidableEq, Repr

/-- Module descriptor, the `Program` enum: a native module (name, identifier)
or a builtin-loader-hosted module (name, identifier, entry point). -/
inductive Program
  | Native (name : String) (id : Pubkey)
  | BuiltinLoader (name : String) (id : Pubkey) (ep : EntryPoint)
  deriving DecidableEq, Repr

/-- Whether a module descriptor is a native (non-loader) module. -/
def Program.is_native : Program → Bool
  | .Native _ _ => true
  | .BuiltinLoader _ _ _ => false

/-- Name component of a module descriptor. -/
def Program.name : Program → String
  | .Native n _ => n
  | .BuiltinLoader n _ _ => n

/-- Identifier component of a module descriptor. -/
def Program.program_id : Program → Pubkey
  | .Native _ i => i
  | .BuiltinLoader _ i _ => i

/-- The inflation schedule `get_inflation`: per cluster type, a finite list of
exact-epoch breakpoints, `none` anywhere else.  Translated from the Rust
`match` on the epoch literal. -/
def get_inflation (cluster_type : ClusterType) (epoch : Nat) : Option Inflation :=
  match cluster_type with
  | .Development => if epoch = 0 then some .default else none
  | .Devnet => if epoch = 0 then some .default else none
  | .Testnet =>
      if epoch = 0 then some .disabled
      else if epoch = 44 then some .default
      else if epoch = 68 then some .disabled
      else if epoch = 74 then some .default
      else none
  | .MainnetBeta =>
      if epoch = 0 then some .disabled
      else if epoch = EPOCH_MAX then some .default
      else none

/-- The activation table `get_programs`: given a cluster type, the entire set
of enabled programs with their activation epochs, in source order. -/
def get_programs (cluster_type : ClusterType) : List (Program × Nat) :=
  match cluster_type with
  | .Development =>
      [ (Program.BuiltinLoader "solana_bpf_loader_program" .bpfLoaderId .bpfLoaderEntry,
          GENESIS_EPOCH),
        (Program.BuiltinLoader "solana_bpf_loader_deprecated_program" .bpfLoaderDeprecatedId
          .bpfLoaderDeprecatedEntry, GENESIS_EPOCH),
        (Program.Native "solana_vest_program" .vestId, GENESIS_EPOCH),
        (Program.Native "solana_budget_program" .budgetId, GENESIS_EPOCH),
        (Program.Native "solana_exchange_program" .exchangeId, GENESIS_EPOCH) ]
  | .Devnet =>
      [ (Program.BuiltinLoader "solana_bpf_loader_deprecated_program" .bpfLoaderDeprecatedId
          .bpfLoaderDeprecatedEntry, GENESIS_EPOCH),
        (Program.Native "solana_vest_program" .vestId, GENESIS_EPOCH),
        (Program.Native "solana_budget_program" .budgetId, GENESIS_EPOCH),
        (Program.Native "solana_exchange_program" .exchangeId, GENESIS_EPOCH),
        (Program.BuiltinLoader "solana_bpf_loader_program" .bpfLoaderId .bpfLoaderEntry, 400) ]
  | .Testnet =>
      [ (Program.BuiltinLoader "solana_bpf_loader_deprecated_program" .bpfLoaderDeprecatedId
          .bpfLoaderDeprecatedEntry, GENESIS_EPOCH),
        (Program.BuiltinLoader "solana_bpf_loader_program" .bpfLoaderId .bpfLoaderEntry, 89) ]
  | .MainnetBeta =>
      [ (Program.BuiltinLoader "solana_bpf_loader_deprecated_program" .bpfLoaderDeprecatedId
          .bpfLoaderDeprecatedEntry, 34),
        (Program.BuiltinLoader "solana_bpf_loader_program" .bpfLoaderId .bpfLoaderEntry,
          EPOCH_MAX) ]

/-- The genesis-builder read `get_native_programs_for_genesis`: loop over the
table and collect (name, key) of native programs whose start epoch is genesis. -/
def get_native_programs_for_genesis (cluster_type : ClusterType) : List (String × Pubkey) :=
  (get_programs cluster_type).foldl
    (fun native_programs ps =>
      match ps.1 with
      | .Native name key =>
          if ps.2 = GENESIS_EPOCH then native_programs ++ [(name, key)] else native_programs
      | .BuiltinLoader _ _ _ => native_programs)
    []

/-- Modelled from the spec: the runtime handle (`Bank` of `solana_runtime`,
not under src/).  It holds the current epoch, the active inflation policy and
the set of currently registered modules. -/
structure Bank where
  epoch : Nat
  inflation : Inflation
  modules : List Program
  deriving DecidableEq, Repr

/-- Modelled from the spec: registration into the runtime handle's module set
is idempotent — registering an already registered module is a no-op. -/
def Bank.addModule (bank : Bank) (p : Program) : Bank :=
  if p ∈ bank.modules then bank else Bank.mk bank.epoch bank.inflation (bank.modules ++ [p])

/-- Registration call `Bank::add_native_program`. -/
def Bank.add_native_program (bank : Bank) (name : String) (program_id : Pubkey) : Bank :=
  bank.addModule (Program.Native name program_id)

/-- Registration call `Bank::add_builtin_loader`. -/
def Bank.add_builtin_loader (bank : Bank) (name : String) (program_id : Pubkey)
    (ep : EntryPoint) : Bank :=
  bank.addModule (Program.BuiltinLoader name program_id ep)

/-- Inflation-parameter storage call `Bank::set_inflation`. -/
def Bank.set_inflation (bank : Bank) (inflation : Inflation) : Bank :=
  Bank.mk bank.epoch inflation bank.modules

/-- The activation condition `should_populate` computed inside the callback:
`initial && bank.epoch() >= start_epoch || !initial && bank.epoch() == start_epoch`. -/
def should_populate (initial : Bool) (epoch start_epoch : Nat) : Bool :=
  (initial && decide (epoch ≥ start_epoch)) || (!initial && decide (epoch = start_epoch))

/-- One iteration of the callback's program loop: if the activation condition
holds, dispatch on the module kind to the matching registration call. -/
def syncStep (initial : Bool) (bank : Bank) (ps : Program × Nat) : Bank :=
  if should_populate initial bank.epoch ps.2 then
    match ps.1 with
    | .Native name program_id => bank.add_native_program name program_id
    | .BuiltinLoader name program_id ep => bank.add_builtin_loader name program_id ep
  else bank

/-- The callback's inflation step: overwrite the policy on a schedule hit,
leave the handle untouched on a miss. -/
def applyInflation (cluster_type : ClusterType) (bank : Bank) : Bank :=
  match get_inflation cluster_type bank.epoch with
  | some inflation => bank.set_inflation inflation
  | none => bank

/-- The epoch synchronization callback produced by `get_entered_epoch_callback`,
applied to a bank and the `initial` flag: inflation step first, then the
program-activation loop over the whole table. -/
def get_entered_epoch_callback (cluster_type : ClusterType) (bank : Bank)
    (initial : Bool) : Bank :=
  (get_programs cluster_type).foldl (syncStep initial) (applyInflation cluster_type bank)

/-- Activation epochs of a deployment's table, in table order. -/
def table_epochs (cluster_type : ClusterType) : List Nat :=
  (get_programs cluster_type).map Prod.snd

/-- Module names of a deployment's table, in table order. -/
def table_names (cluster_type : ClusterType) : List String :=
  (get_programs cluster_type).map (fun ps => ps.1.name)

/-- Module identifiers of a deployment's table, in table order. -/
def table_ids (cluster_type : ClusterType) : List Pubkey :=
  (get_programs cluster_type).map (fun ps => ps.1.program_id)

/-- Spec-side reformulation of the genesis-builder read, following the spec's
words: filter the full table to native (non-loader) modules whose activation
epoch equals genesis, keeping (name, identifier) pairs in table order. -/
def native_entries_at_genesis (cluster_type : ClusterType) : List (String × Pubkey) :=
  (get_programs cluster_type).filterMap (fun ps =>
    match ps.1 with
    | .Native name key => if ps.2 = GENESIS_EPOCH then some (name, key) else none
    | .BuiltinLoader _ _ _ => none)

/-! ## Basic lemmas about the runtime-handle operations -/

lemma Bank.addModule_epoch (bank : Bank) (p : Program) :
    (bank.addModule p).epoch = bank.epoch := by
  unfold Bank.addModule
  split <;> rfl

lemma Bank.addModule_inflation (bank : Bank) (p : Program) :
    (bank.addModule p).inflation = bank.inflation := by
  unfold Bank.addModule
  split <;> rfl

lemma Bank.mem_addModule (bank : Bank) (p q : Program) :
    q ∈ (bank.addModule p).modules ↔ q ∈ bank.modules ∨ q = p := by
  by_cases h : p ∈ bank.modules
  · simp only [Bank.addModule, if_pos h]
    constructor
    · exact Or.inl
    · rintro (hq | rfl)
      · exact hq
      · exact h
  · simp [Bank.addModule, if_neg h]

lemma Bank.addModule_of_mem (bank : Bank) (p : Program) (h : p ∈ bank.modules) :
    bank.addModule p = bank := by
  unfold Bank.addModule
  rw [if_pos h]

lemma Bank.set_inflation_eq_self (bank : Bank) (i : Inflation)
    (h : bank.inflation = i) : bank.set_inflation i = bank := by
  cases bank
  cases h
  rfl

lemma syncStep_eq (initial : Bool) (bank : Bank) (p : Program) (s : Nat) :
    syncStep initial bank (p, s) =
      if should_populate initial bank.epoch s then bank.addModule p else bank := by
  cases p <;> rfl

lemma syncStep_epoch (initial : Bool) (bank : Bank) (ps : Program × Nat) :
    (syncStep initial bank ps).epoch = bank.epoch := by
  obtain ⟨p, s⟩ := ps
  rw [syncStep_eq]
  split
  · exact Bank.addModule_epoch bank p
  · rfl

lemma syncStep_inflation (initial : Bool) (bank : Bank) (ps : Program × Nat) :
    (syncStep initial bank ps).inflation = bank.inflation := by
  obtain ⟨p, s⟩ := ps
  rw [syncStep_eq]
  split
  · exact Bank.addModule_inflation bank p
  · rfl

lemma foldl_syncStep_epoch (initial : Bool) (l : List (Program × Nat)) (bank : Bank) :
    (l.foldl (syncStep initial) bank).epoch = bank.epoch := by
  induction l generalizing bank with
  | nil => rfl
  | cons ps l ih => rw [List.foldl_cons, ih, syncStep_epoch]

lemma foldl_syncStep_inflation (initial : Bool) (l : List (Program × Nat)) (bank : Bank) :
    (l.foldl (syncStep initial) bank).inflation = bank.inflation := by
  induction l generalizing bank with
  | nil => rfl
  | cons ps l ih => rw [List.foldl_cons, ih, syncStep_inflation]

lemma applyInflation_epoch (cluster_type : ClusterType) (bank : Bank) :
    (applyInflation cluster_type bank).epoch = bank.epoch := by
  unfold applyInflation
  cases h : get_inflation cluster_type bank.epoch <;> rfl

lemma applyInflation_modules (cluster_type : ClusterType) (bank : Bank) :
    (applyInflation cluster_type bank).modules = bank.modules := by
  unfold applyInflation
  cases h : get_inflation cluster_type bank.epoch <;> rfl

lemma applyInflation_inflation (cluster_type : ClusterType) (bank : Bank) :
    (applyInflation cluster_type bank).inflation =
      (get_inflation cluster_type bank.epoch).getD bank.inflation := by
  unfold applyInflation
  cases h : get_inflation cluster_type bank.epoch <;> rfl

lemma callback_epoch (cluster_type : ClusterType) (bank : Bank) (initial : Bool) :
    (get_entered_epoch_callback cluster_type bank initial).epoch = bank.epoch := by
  unfold get_entered_epoch_callback
  rw [foldl_syncStep_epoch, applyInflation_epoch]

lemma callback_inflation (cluster_type : ClusterType) (bank : Bank) (initial : Bool) :
    (get_entered_epoch_callback cluster_type bank initial).inflation =
      (get_inflation cluster_type bank.epoch).getD bank.inflation := by
  unfold get_entered_epoch_callback
  rw [foldl_syncStep_inflation, applyInflation_inflation]

lemma mem_foldl_syncStep (initial : Bool) (l : List (Program × Nat)) (bank : Bank)
    (q : Program) :
    q ∈ (l.foldl (syncStep initial) bank).modules ↔
      q ∈ bank.modules ∨
        ∃ s, (q, s) ∈ l ∧ should_populate initial bank.epoch s = true := by
  induction l generalizing bank with
  | nil => simp
  | cons ps l ih =>
      obtain ⟨p, s0⟩ := ps
      rw [List.foldl_cons, ih, syncStep_epoch]
      by_cases h : should_populate initial bank.epoch s0 = true
      · rw [syncStep_eq, if_pos h, Bank.mem_addModule]
        constructor
        · rintro ((hq | rfl) | ⟨s, hs, hcond⟩)
          · exact Or.inl hq
          · exact Or.inr ⟨s0, List.mem_cons_self _ _, h⟩
          · exact Or.inr ⟨s, List.mem_cons_of_mem _ hs, hcond⟩
        · rintro (hq | ⟨s, hs, hcond⟩)
          · exact Or.inl (Or.inl hq)
          · rcases List.mem_cons.mp hs with heq | hmem
            · injection heq with hq hs1
              exact Or.inl (Or.inr hq)
            · exact Or.inr ⟨s, hmem, hcond⟩
      · rw [syncStep_eq, if_neg h]
        constructor
        · rintro (hq | ⟨s, hs, hcond⟩)
          · exact Or.inl hq
          · exact Or.inr ⟨s, List.mem_cons_of_mem _ hs, hcond⟩
        · rintro (hq | ⟨s, hs, hcond⟩)
          · exact Or.inl hq
          · rcases List.mem_cons.mp hs with heq | hmem
            · injection heq with hq hs1
              subst hs1
              exact absurd hcond h
            · exact Or.inr ⟨s, hmem, hcond⟩

lemma foldl_syncStep_no_new (initial : Bool) :
    ∀ (l : List (Program × Nat)) (bank : Bank),
      (∀ p s, (p, s) ∈ l → should_populate initial bank.epoch s = true → p ∈ bank.modules) →
      l.foldl (syncStep initial) bank = bank := by
  intro l
  induction l with
  | nil =>
      intro bank _
      rfl
  | cons ps l ih =>
      intro bank h
      obtain ⟨p, s0⟩ := ps
      rw [List.foldl_cons, syncStep_eq]
      by_cases hc : should_populate initial bank.epoch s0 = true
      · rw [if_pos hc, Bank.addModule_of_mem bank p (h p s0 (List.mem_cons_self _ _) hc)]
        exact ih bank (fun p1 s1 hmem hcond => h p1 s1 (List.mem_cons_of_mem _ hmem) hcond)
      · rw [if_neg hc]
        exact ih bank (fun p1 s1 hmem hcond => h p1 s1 (List.mem_cons_of_mem _ hmem) hcond)

lemma applyInflation_callback (cluster_type : ClusterType) (bank : Bank) (initial : Bool) :
    applyInflation cluster_type (get_entered_epoch_callback cluster_type bank initial) =
      get_entered_epoch_callback cluster_type bank initial := by
  unfold applyInflation
  rw [callback_epoch]
  cases h : get_inflation cluster_type bank.epoch with
  | none => rfl
  | some inflation =>
      refine Bank.set_inflation_eq_self _ _ ?_
      rw [callback_inflation, h]
      rfl

/-! ## Claim theorems -/

/-- C1: for every deployment identity and every bank (of current epoch
`bank.epoch`), the callback with `initial = true` registers exactly the
modules of the activation table whose start epoch is at most the current
epoch: a module is registered after the call iff it was registered before or
it appears in the table with `start_epoch ≤ bank.epoch`.  The epochs range
over all of `Nat`, so the statement covers the sentinel `EPOCH_MAX` both as
current epoch and as start epoch. -/
theorem cold_start_catch_up (cluster_type : ClusterType) (bank : Bank) (q : Program) :
    q ∈ (get_entered_epoch_callback cluster_type bank true).modules ↔
      q ∈ bank.modules ∨
        ∃ s, (q, s) ∈ get_programs cluster_type ∧ s ≤ bank.epoch := by
  unfold get_entered_epoch_callback
  rw [mem_foldl_syncStep, applyInflation_epoch, applyInflation_modules]
  simp [should_populate]

/-- C2: for every deployment identity and every bank, the callback with
`initial = false` newly registers exactly the modules whose start epoch
equals the current epoch: a module is registered after the call iff it was
registered before or it appears in the table with `start_epoch = bank.epoch`.
In particular everything registered before stays registered — the call
unregisters nothing. -/
theorem live_transition_precision (cluster_type : ClusterType) (bank : Bank) (q : Program) :
    q ∈ (get_entered_epoch_callback cluster_type bank false).modules ↔
      q ∈ bank.modules ∨
        ∃ s, (q, s) ∈ get_programs cluster_type ∧ s = bank.epoch := by
  unfold get_entered_epoch_callback
  rw [mem_foldl_syncStep, applyInflation_epoch, applyInflation_modules]
  simp [should_populate, eq_comm]

/-- C3: invoking the callback twice in succession with identical arguments
leaves the runtime handle in the same observable state (epoch, inflation
policy and registered-module list) as invoking it once.  Module registration
is idempotent in the model (`Bank.addModule` is a no-op on an already
registered module), matching the spec's hypothesis. -/
theorem sync_idempotent (cluster_type : ClusterType) (bank : Bank) (initial : Bool) :
    get_entered_epoch_callback cluster_type
        (get_entered_epoch_callback cluster_type bank initial) initial =
      get_entered_epoch_callback cluster_type bank initial := by
  have h1 : get_entered_epoch_callback cluster_type
      (get_entered_epoch_callback cluster_type bank initial) initial =
      (get_programs cluster_type).foldl (syncStep initial)
        (applyInflation cluster_type (get_entered_epoch_callback cluster_type bank initial)) :=
    rfl
  rw [h1, applyInflation_callback]
  apply foldl_syncStep_no_new
  intro p s hmem hcond
  rw [callback_epoch] at hcond
  have h2 : get_entered_epoch_callback cluster_type bank initial =
      (get_programs cluster_type).foldl (syncStep initial)
        (applyInflation cluster_type bank) := rfl
  rw [h2, mem_foldl_syncStep, applyInflation_epoch, applyInflation_modules]
  exact Or.inr ⟨s, hmem, hcond⟩

/-- C8: whenever the inflation schedule has no breakpoint at the bank's
current epoch, the callback leaves the active inflation policy exactly as it
was before the call. -/
theorem inflation_untouched_on_miss (cluster_type : ClusterType) (bank : Bank)
    (initial : Bool) (h : get_inflation cluster_type bank.epoch = none) :
    (get_entered_epoch_callback cluster_type bank initial).inflation = bank.inflation := by
  rw [callback_inflation, h]
  rfl

/-- Witness for C8 at a concrete input: the development schedule has no
breakpoint at epoch 1, and the callback there leaves the disabled policy in
place. -/
theorem inflation_untouched_on_miss_witness :
    get_inflation ClusterType.Development 1 = none ∧
    (get_entered_epoch_callback ClusterType.Development
        (Bank.mk 1 Inflation.disabled []) false).inflation = Inflation.disabled :=
  ⟨rfl, inflation_untouched_on_miss ClusterType.Development
    (Bank.mk 1 Inflation.disabled []) false rfl⟩

/-- C4: for every deployment identity, the activation table satisfies the
structural invariants checked by `do_test_uniqueness`: activation epochs are
non-decreasing in table order, and all module names and all module
identifiers across the table are pairwise distinct. -/
theorem table_invariants (cluster_type : ClusterType) :
    List.Chain' (fun a b => a ≤ b) (table_epochs cluster_type) ∧
    (table_names cluster_type).Nodup ∧ (table_ids cluster_type).Nodup := by
  cases cluster_type <;> refine ⟨?_, ?_, ?_⟩ <;>
    first
      | decide
      | simp [table_epochs, get_programs, List.chain'_cons, GENESIS_EPOCH, EPOCH_MAX]

/-- C5: the public-test (Testnet) inflation schedule has exactly four
breakpoints — disabled at 0, default at 44, disabled at 68, default at 74 —
and returns nothing at every other epoch; in particular epoch 44 yields the
default policy and epoch 45 yields nothing. -/
theorem testnet_inflation_breakpoints :
    get_inflation ClusterType.Testnet 0 = some Inflation.disabled ∧
    get_inflation ClusterType.Testnet 44 = some Inflation.default ∧
    get_inflation ClusterType.Testnet 68 = some Inflation.disabled ∧
    get_inflation ClusterType.Testnet 74 = some Inflation.default ∧
    get_inflation ClusterType.Testnet 45 = none ∧
    ∀ epoch : Nat, epoch ≠ 0 → epoch ≠ 44 → epoch ≠ 68 → epoch ≠ 74 →
      get_inflation ClusterType.Testnet epoch = none := by
  refine ⟨rfl, rfl, rfl, rfl, rfl, ?_⟩
  intro epoch h0 h44 h68 h74
  simp [get_inflation, h0, h44, h68, h74]

/-- Witness for C5's lookup-miss clause at the concrete epoch 100. -/
theorem testnet_inflation_breakpoints_witness :
    get_inflation ClusterType.Testnet 100 = none :=
  testnet_inflation_breakpoints.2.2.2.2.2 100 (by decide) (by decide) (by decide) (by decide)

/-- The production bank at epoch 0 as created at genesis: default inflation,
no registered modules. -/
def mainnetGenesisBank : Bank := Bank.mk 0 Inflation.default []

/-- The production bank after one callback invocation at epoch 0. -/
def mainnetAfterSync : Bank :=
  get_entered_epoch_callback ClusterType.MainnetBeta mainnetGenesisBank true

/-- C6 counterexample: on the production (MainnetBeta) deployment at epoch 0,
after the callback the number of loader-hosted table entries that remain
unregistered is 2 (the entries with activation epochs 34 and EPOCH_MAX),
not 1 as the claim states. -/
theorem mainnet_genesis_unregistered_cex :
    ((get_programs ClusterType.MainnetBeta).filter
        (fun ps => !ps.1.is_native && !(decide (ps.1 ∈ mainnetAfterSync.modules)))).length
      = 2 ∧
    ¬ ((get_programs ClusterType.MainnetBeta).filter
        (fun ps => !ps.1.is_native && !(decide (ps.1 ∈ mainnetAfterSync.modules)))).length
      = 1 := by
  constructor <;> decide

/-- C6 (amended): on the production deployment at epoch 0 the callback sets
the inflation policy to disabled, registers nothing, and exactly two
loader-hosted modules (activation epochs 34 and EPOCH_MAX, neither yet
reached) remain unregistered. -/
theorem mainnet_genesis_sync :
    mainnetAfterSync.inflation = Inflation.disabled ∧
    mainnetAfterSync.modules = [] ∧
    ((get_programs ClusterType.MainnetBeta).filter
        (fun ps => !ps.1.is_native && !(decide (ps.1 ∈ mainnetAfterSync.modules)))).length
      = 2 := by
  refine ⟨?_, ?_, ?_⟩ <;> decide

/-- The development bank at epoch 0 before the first callback: disabled
inflation (so the policy change is observable), no registered modules. -/
def devGenesisBank : Bank := Bank.mk 0 Inflation.disabled []

/-- The development bank after the callback at epoch 0 with `initial = true`. -/
def devAfterSync : Bank :=
  get_entered_epoch_callback ClusterType.Development devGenesisBank true

/-- C7: on the development deployment at epoch 0 with `initial = true`, the
callback sets the inflation policy to default and registers exactly 3 native
and 2 loader-hosted modules; the table holds 5 entries, all with activation
epoch equal to genesis. -/
theorem development_genesis_sync :
    devAfterSync.inflation = Inflation.default ∧
    (devAfterSync.modules.filter (fun p => p.is_native)).length = 3 ∧
    (devAfterSync.modules.filter (fun p => !p.is_native)).length = 2 ∧
    (get_programs ClusterType.Development).length = 5 ∧
    (get_programs ClusterType.Development).all
        (fun ps => decide (ps.2 = GENESIS_EPOCH)) = true := by
  refine ⟨?_, ?_, ?_, ?_, ?_⟩ <;> decide

/-- C9: for every deployment identity, the genesis-builder read
`get_native_programs_for_genesis` returns exactly the (name, identifier)
pairs of the native non-loader entries at genesis epoch, in table order, as
described by the spec-side definition `native_entries_at_genesis`. -/
theorem genesis_native_read (cluster_type : ClusterType) :
    get_native_programs_for_genesis cluster_type = native_entries_at_genesis cluster_type := by
  cases cluster_type <;> decide

/-- C10: the public-test (Testnet) and production (MainnetBeta) activation
tables contain no native modules at all — every entry is loader-hosted — so
the genesis-builder read returns the empty sequence for both deployments. -/
theorem testnet_mainnet_no_natives :
    (get_programs ClusterType.Testnet).all (fun ps => !ps.1.is_native) = true ∧
    (get_programs ClusterType.MainnetBeta).all (fun ps => !ps.1.is_native) = true ∧
    get_native_programs_for_genesis ClusterType.Testnet = [] ∧
    get_native_programs_for_genesis ClusterType.MainnetBeta = [] := by
  refine ⟨?_, ?_, ?_, ?_⟩ <;> decide

end GenesisPrograms
